import Mathlib

/-!
Verification development for review_pr.py: a shallow embedding of the
script's pure fixing logic (fix_task_func and its helpers) and of the
effectful components (run_linter, review_task_func, get_pr_files, main)
over explicit outcome types for the external calls (subprocess, GitHub
API, LLM backend).

Python strings are modelled as lists of characters (Unicode code
points).  Python exceptions inside fix_task_func are modelled with
Except: the places where the script can raise (negative list indexing
on an empty list) return Except.error, and fix_task_func wraps the body
exactly as the script's try/except does.
-/

set_option linter.unusedVariables false

/-- Convert a Lean string literal to the list-of-characters model of a
Python string. -/
def str (s : String) : List Char := s.toList

/-- The apostrophe character used by the script's quoted-name search. -/
def quoteChar : Char := Char.ofNat 39

/-- The characters Python's str.splitlines treats as line boundaries. -/
def isLineBreak (c : Char) : Bool :=
  c = '\n' || c = '\r' || c = Char.ofNat 11 || c = Char.ofNat 12 ||
  c = Char.ofNat 28 || c = Char.ofNat 29 || c = Char.ofNat 30 ||
  c = Char.ofNat 133 || c = Char.ofNat 8232 || c = Char.ofNat 8233

/-- Worker for pySplitlines: scans the text, accumulating the current
line in reverse; a carriage-return/line-feed pair counts as a single
boundary, and a final unterminated line is emitted. -/
def pySplitlinesGo : List Char → List Char → List (List Char)
  | [], acc => if acc.isEmpty then [] else [acc.reverse]
  | [c], acc =>
      if isLineBreak c then [acc.reverse]
      else [(c :: acc).reverse]
  | c :: d :: rest, acc =>
      if isLineBreak c then
        if c = '\r' && d = '\n' then acc.reverse :: pySplitlinesGo rest []
        else acc.reverse :: pySplitlinesGo (d :: rest) []
      else pySplitlinesGo (d :: rest) (c :: acc)

/-- Python str.splitlines() with keepends=False, as used by
file_content.splitlines() and result.stdout.splitlines(). -/
def pySplitlines (cs : List Char) : List (List Char) :=
  pySplitlinesGo cs []

/-- Python '\n'.join(lines), as used to build fixed_content. -/
def joinNL : List (List Char) → List Char
  | [] => []
  | [l] => l
  | l :: rest => l ++ '\n' :: joinNL rest

/-- Whitespace stripped by Python's str.strip(). -/
def isPySpace (c : Char) : Bool :=
  c = ' ' || c = '\t' || c = '\n' || c = '\r' ||
  c = Char.ofNat 11 || c = Char.ofNat 12

/-- Python str.strip(): drop whitespace from both ends. -/
def pyStrip (cs : List Char) : List Char :=
  ((cs.dropWhile isPySpace).reverse.dropWhile isPySpace).reverse

/-- Decimal value of a digit run, as Python's int() computes it on the
regex group matched by a digit sequence. -/
def digitsToNat (ds : List Char) : Nat :=
  ds.foldl (fun n c => n * 10 + (c.toNat - 48)) 0

/-- Fueled decimal printer worker. -/
def natDigitsGo : Nat → Nat → List Char → List Char
  | 0, _, acc => acc
  | fuel + 1, n, acc =>
      if n < 10 then Char.ofNat (48 + n) :: acc
      else natDigitsGo fuel (n / 10) (Char.ofNat (48 + n % 10) :: acc)

/-- Decimal rendering of a natural number, as Python's str() prints a
nonnegative int inside an f-string. -/
def natDigits (n : Nat) : List Char := natDigitsGo (n + 1) n []

/-- Characters matched by the regex word class in the finding pattern
(modelled over ASCII letters, digits and underscore). -/
def isWordChar (c : Char) : Bool := c.isAlphanum || c = '_'

/-- Python's substring containment test (the 'in' operator on str):
the pattern occurs contiguously somewhere in the text. -/
def containsSub (pat : List Char) : List Char → Bool
  | [] => pat.isEmpty
  | c :: rest => pat.isPrefixOf (c :: rest) || containsSub pat rest

/-- Attempt to match the tail of the finding pattern - two
colon-separated digit groups, a colon and space, a word-class code, a
space, and the rest of the line as the message - starting right after
a colon consumed by the minimal leading group. -/
def parseAfterColon (cs : List Char) : Option (Nat × Nat × List Char × List Char) :=
  let p1 := cs.span Char.isDigit
  if p1.1.isEmpty then none
  else
    match p1.2 with
    | ':' :: r2 =>
        let p2 := r2.span Char.isDigit
        if p2.1.isEmpty then none
        else
          match p2.2 with
          | ':' :: ' ' :: r4 =>
              let p3 := r4.span isWordChar
              if p3.1.isEmpty then none
              else
                match p3.2 with
                | ' ' :: r6 =>
                    some (digitsToNat p1.1, digitsToNat p2.1, p3.1,
                          r6.takeWhile (fun c => c ≠ '\n'))
                | _ => none
          | _ => none
    | _ => none

/-- Scan for the leftmost position at which the finding pattern's tail
matches; the non-greedy leading group may absorb any non-newline
characters, including earlier colons whose tails fail to match. -/
def scanIssue : List Char → Option (Nat × Nat × List Char × List Char)
  | [] => none
  | c :: rest =>
      if c = '\n' then none
      else if c = ':' then
        match parseAfterColon rest with
        | some r => some r
        | none => scanIssue rest
      else scanIssue rest

/-- Model of re.match against the finding record pattern: on success
yields the parsed groups (row, column, code, message); on failure the
finding line is silently skipped by the fixer. -/
def parseIssue (issue : List Char) : Option (Nat × Nat × List Char × List Char) :=
  scanIssue issue

/-- Model of the search for a single-quoted name in a finding message:
the leftmost quote followed by at least one non-quote character and a
closing quote yields the enclosed run. -/
def searchQuoted : List Char → Option (List Char)
  | [] => none
  | c :: rest =>
      if c = quoteChar then
        let p := rest.span (fun d => d ≠ quoteChar)
        if p.1.isEmpty then searchQuoted rest
        else
          match p.2 with
          | d :: _ => if d = quoteChar then some p.1 else searchQuoted rest
          | [] => searchQuoted rest
      else searchQuoted rest

/-- Python list indexing, resolving a possibly negative index against a
list length; none models an IndexError. -/
def pyIdx (len : Nat) (i : Int) : Option Nat :=
  if 0 ≤ i then (if i < (len : Int) then some i.toNat else none)
  else (if 0 ≤ i + (len : Int) then some (i + (len : Int)).toNat else none)

/-- Python lines[i]: a read with negative-index support; an
out-of-range index raises (Except.error). -/
def pyGet (l : List (List Char)) (i : Int) : Except Unit (List Char) :=
  match pyIdx l.length i with
  | some n => Except.ok (l.getD n [])
  | none => Except.error ()

/-- Python lines[i] = v: a write with negative-index support; an
out-of-range index raises (Except.error). -/
def pySet (l : List (List Char)) (i : Int) (v : List Char) :
    Except Unit (List (List Char)) :=
  match pyIdx l.length i with
  | some n => Except.ok (l.set n v)
  | none => Except.error ()

/-- The prefix the script puts before a commented-out unused-variable
line. -/
def commentPrefix : List Char := str "# Removed unused variable: "

/-- The fixed placeholder docstring the script inserts as the new first
line. -/
def placeholderDocstring : List Char := str "\"\"\"Sample docstring.\"\"\""

/-- One iteration of the fixer's loop over finding lines: match the
record pattern; on the unused-variable code (and a message not
mentioning an undefined name) with a quoted name, replace the line at
the parsed (1-based, converted to 0-based) position in the working copy
with a comment-out of the snapshot line and append a note; on the
missing-docstring code, push the placeholder docstring on top of the
working copy and append a fixed note; anything else is left alone.
The bound check and the text read use the snapshot taken at function
entry, while the write goes to the working copy. -/
def applyIssue (lines : List (List Char))
    (st : List (List Char) × List (List Char)) (issue : List Char) :
    Except Unit (List (List Char) × List (List Char)) :=
  match parseIssue issue with
  | none => Except.ok st
  | some (p, _col, code, message) =>
      let lineNum : Int := (p : Int) - 1
      if lineNum < (lines.length : Int) then
        if code = str "F841" ∧ containsSub (str "undefined name") message = false then
          match searchQuoted message with
          | some varName =>
              match pyGet lines lineNum with
              | Except.ok orig =>
                  match pySet st.1 lineNum (commentPrefix ++ orig) with
                  | Except.ok fixedLines =>
                      Except.ok (fixedLines,
                        st.2 ++ [str "Line " ++ natDigits (lineNum + 1).toNat ++
                                 str ": Removed unused variable " ++ [quoteChar] ++
                                 varName ++ [quoteChar]])
                  | Except.error e => Except.error e
              | Except.error e => Except.error e
          | none => Except.ok st
        else if code = str "D100" ∧ containsSub (str "missing docstring") message = true then
          Except.ok (placeholderDocstring :: st.1,
                     st.2 ++ [str "Line 1: Added missing docstring"])
        else Except.ok st
      else Except.ok st

/-- The fixer's loop over all finding lines, threading the working copy
and the note list; a raised exception aborts the loop. -/
def runIssues (lines : List (List Char)) :
    List (List Char) × List (List Char) → List (List Char) →
    Except Unit (List (List Char) × List (List Char))
  | st, [] => Except.ok st
  | st, issue :: rest =>
      match applyIssue lines st issue with
      | Except.ok st' => runIssues lines st' rest
      | Except.error e => Except.error e

/-- The body of fix_task_func before its try/except: split the content
into lines, fold the fixes over the findings, and join the result with
newlines. -/
def fixBody (fileContent : List Char) (issues : List (List Char)) :
    Except Unit (List Char × List (List Char)) :=
  let lines := pySplitlines fileContent
  match runIssues lines (lines, []) issues with
  | Except.ok st => Except.ok (joinNL st.1, st.2)
  | Except.error e => Except.error e

/-- fix_task_func from review_pr.py: apply the mechanical fixes for the
given finding lines to the file content, returning the fixed content
and the human-readable notes; any exception inside the body yields the
original content and an empty note list. -/
def fix_task_func (fileContent : List Char) (issues : List (List Char)) :
    List Char × List (List Char) :=
  match fixBody fileContent issues with
  | Except.ok r => r
  | Except.error _ => (fileContent, [])

/-- Outcome of one flake8 invocation: either some exception was raised
along the way (temp-file I/O, missing executable, unlink failure), or
the process completed with an exit code, stdout and stderr. -/
inductive LintOutcome where
  | raised
  | completed (returncode : Int) (stdout : List Char) (stderr : List Char)
deriving DecidableEq

/-- run_linter from review_pr.py over an abstract invocation outcome:
any exception yields no findings; a nonzero exit with empty stdout
yields no findings; whitespace-only stdout yields no findings;
otherwise the stdout lines are the findings. -/
def run_linter (o : LintOutcome) : List (List Char) :=
  match o with
  | LintOutcome.raised => []
  | LintOutcome.completed rc out _err =>
      if rc ≠ 0 ∧ out = [] then []
      else if pyStrip out = [] then []
      else pySplitlines out

/-- Outcome of one LLM completion call: an exception with its message,
or a textual answer. -/
inductive LLMOutcome where
  | raised (err : List Char)
  | answered (text : List Char)
deriving DecidableEq

/-- review_task_func from review_pr.py over abstract linter and LLM
outcomes: with no findings, the fixed success message embedding the
path; otherwise the LLM's answer, or on an LLM exception the failure
message embedding the path and the error text. -/
def review_task_func (lint : LintOutcome) (llm : LLMOutcome) (path : List Char) :
    List Char :=
  let issues := run_linter lint
  if issues = [] then str "✅ No issues found in " ++ path
  else
    match llm with
    | LLMOutcome.answered t => t
    | LLMOutcome.raised e =>
        str "❌ Failed to generate comments for " ++ path ++ str ": " ++ e

/-- External calls the orchestrator can make while processing files. -/
inductive Event where
  | contentFetch
  | linterRun
  | llmCall
  | reviewCommentPost
  | fixerRun
  | fixPrCreate
  | fixPrCommentPost
deriving DecidableEq

/-- Per-file environment: the fetched content (none models a fetch
failure), the outcomes of the two linter invocations and of the LLM
call, and the result of the fix-PR creation (none models a declined or
failed creation). -/
structure FileEnv where
  content : Option (List Char)
  reviewLint : LintOutcome
  reviewLLM : LLMOutcome
  fixLint : LintOutcome
  fixPrNumber : Option Nat

/-- The per-file body of main's loop, recorded as the sequence of
external calls it makes: fetch; on success, review (one linter run and
an LLM call only when that run found issues) and post the review
comment; a second linter run; if it found issues, run the fixer; if the
fixer produced notes, attempt the fix PR, and on a returned PR number
post the link comment. -/
def processFile (env : FileEnv) (path : List Char) : List Event :=
  match env.content with
  | none => [Event.contentFetch]
  | some content =>
      let fixIssues := run_linter env.fixLint
      Event.contentFetch ::
        (Event.linterRun ::
          (if run_linter env.reviewLint = [] then [] else [Event.llmCall])) ++
        [Event.reviewCommentPost] ++ [Event.linterRun] ++
        (if fixIssues = [] then []
         else Event.fixerRun ::
           (if (fix_task_func content fixIssues).2 = [] then []
            else Event.fixPrCreate ::
              (match env.fixPrNumber with
               | some _ => [Event.fixPrCommentPost]
               | none => [])))

/-- Outcome of the pull-request file listing: a GitHub exception, or
the listed file names. -/
inductive GhFilesOutcome where
  | raised
  | listed (files : List (List Char))

/-- get_pr_files from review_pr.py over an abstract listing outcome: a
GitHub exception yields the empty list; otherwise the files are
filtered to the Python suffix (an empty filter result is logged and
returned as the empty list). -/
def get_pr_files (o : GhFilesOutcome) : List (List Char) :=
  match o with
  | GhFilesOutcome.raised => []
  | GhFilesOutcome.listed files =>
      files.filter (fun f => (str ".py").isSuffixOf f)

/-- Whole-run environment: the file-listing outcome and the per-file
environments. -/
structure MainEnv where
  files : GhFilesOutcome
  perFile : List Char → FileEnv

/-- main from review_pr.py: list the PR's Python files; when there are
none, log and terminate normally; otherwise process each file in order.
The result is the exit code and the sequence of external calls made
after the listing. -/
def main_func (env : MainEnv) : Nat × List Event :=
  let prFiles := get_pr_files env.files
  if prFiles = [] then (0, [])
  else (0, (prFiles.map (fun p => processFile (env.perFile p) p)).flatten)

/-- Whether a Python string ends with a line-boundary character. -/
def endsBreak : List Char → Bool
  | [] => false
  | [c] => isLineBreak c
  | _ :: rest => endsBreak rest

/-- All lines in a list are free of line-boundary characters. -/
def linesOk (ls : List (List Char)) : Prop :=
  ∀ l ∈ ls, ∀ c ∈ l, isLineBreak c = false

/-! ## Helper lemmas about the embedded operations -/

theorem pyIdx_pos (len p : Nat) (h1 : 1 ≤ p) (h2 : p ≤ len) :
    pyIdx len ((p : Int) - 1) = some (p - 1) := by
  unfold pyIdx
  rw [if_pos (by omega), if_pos (by omega)]
  congr 1
  omega

theorem pyGet_pos (l : List (List Char)) (p : Nat) (h1 : 1 ≤ p) (h2 : p ≤ l.length) :
    pyGet l ((p : Int) - 1) = Except.ok (l.getD (p - 1) []) := by
  unfold pyGet
  rw [pyIdx_pos l.length p h1 h2]

theorem pySet_pos (l : List (List Char)) (p : Nat) (v : List Char)
    (h1 : 1 ≤ p) (h2 : p ≤ l.length) :
    pySet l ((p : Int) - 1) v = Except.ok (l.set (p - 1) v) := by
  unfold pySet
  rw [pyIdx_pos l.length p h1 h2]

theorem applyIssue_skip (lines : List (List Char))
    (st : List (List Char) × List (List Char)) (issue : List Char)
    (h : parseIssue issue = none) : applyIssue lines st issue = Except.ok st := by
  simp only [applyIssue, h]

theorem applyIssue_outOfRange (lines : List (List Char))
    (st : List (List Char) × List (List Char)) (issue : List Char)
    (p col : Nat) (code msg : List Char)
    (hp : parseIssue issue = some (p, col, code, msg))
    (hgt : lines.length < p) : applyIssue lines st issue = Except.ok st := by
  simp only [applyIssue, hp]
  rw [if_neg (by omega)]

theorem applyIssue_F841 (lines fixedLines : List (List Char))
    (comments : List (List Char)) (issue : List Char) (p col : Nat) (msg x : List Char)
    (hp : parseIssue issue = some (p, col, str "F841", msg))
    (hu : containsSub (str "undefined name") msg = false)
    (hx : searchQuoted msg = some x)
    (h1 : 1 ≤ p) (h2 : p ≤ lines.length) (hfl : lines.length ≤ fixedLines.length) :
    applyIssue lines (fixedLines, comments) issue =
      Except.ok (fixedLines.set (p - 1) (commentPrefix ++ lines.getD (p - 1) []),
        comments ++ [str "Line " ++ natDigits p ++ str ": Removed unused variable " ++
          [quoteChar] ++ x ++ [quoteChar]]) := by
  have hset := pySet_pos fixedLines p (commentPrefix ++ lines.getD (p - 1) [])
    h1 (le_trans h2 hfl)
  have hrepr : ((p : Int) - 1 + 1).toNat = p := by omega
  simp only [applyIssue, hp]
  rw [if_pos (by omega), if_pos ⟨trivial, hu⟩]
  simp only [hx, pyGet_pos lines p h1 h2, hset, hrepr]

theorem applyIssue_D100 (lines fixedLines : List (List Char))
    (comments : List (List Char)) (issue : List Char) (p col : Nat) (msg : List Char)
    (hp : parseIssue issue = some (p, col, str "D100", msg))
    (hm : containsSub (str "missing docstring") msg = true)
    (h2 : p ≤ lines.length) :
    applyIssue lines (fixedLines, comments) issue =
      Except.ok (placeholderDocstring :: fixedLines,
        comments ++ [str "Line 1: Added missing docstring"]) := by
  simp only [applyIssue, hp]
  rw [if_pos (by omega), if_neg (fun h => absurd h.1 (by decide)),
    if_pos ⟨trivial, hm⟩]

theorem runIssues_nil (lines : List (List Char))
    (st : List (List Char) × List (List Char)) :
    runIssues lines st [] = Except.ok st := rfl

theorem runIssues_cons (lines : List (List Char))
    (st st' : List (List Char) × List (List Char)) (issue : List Char)
    (rest : List (List Char))
    (h : applyIssue lines st issue = Except.ok st') :
    runIssues lines st (issue :: rest) = runIssues lines st' rest := by
  simp only [runIssues, h]

theorem fix_of_runIssues (content : List Char) (issues : List (List Char))
    (fixedLines comments : List (List Char))
    (h : runIssues (pySplitlines content) (pySplitlines content, []) issues =
      Except.ok (fixedLines, comments)) :
    fix_task_func content issues = (joinNL fixedLines, comments) := by
  simp only [fix_task_func, fixBody, h]

theorem runIssues_all_skip (lines : List (List Char))
    (st : List (List Char) × List (List Char)) (issues : List (List Char))
    (h : ∀ i ∈ issues, parseIssue i = none) :
    runIssues lines st issues = Except.ok st := by
  induction issues with
  | nil => rfl
  | cons i rest ih =>
      rw [runIssues_cons lines st st i rest
        (applyIssue_skip lines st i (h i (List.mem_cons_self i rest)))]
      exact ih (fun j hj => h j (List.mem_cons_of_mem i hj))


/-! ## Lemmas about splitlines and the newline join -/

theorem go_nil (acc : List Char) :
    pySplitlinesGo [] acc = if acc.isEmpty then [] else [acc.reverse] := rfl

theorem go_one (c : Char) (acc : List Char) :
    pySplitlinesGo [c] acc =
      if isLineBreak c then [acc.reverse] else [(c :: acc).reverse] := rfl

theorem go_two (c d : Char) (rest acc : List Char) :
    pySplitlinesGo (c :: d :: rest) acc =
      if isLineBreak c then
        if c = '\r' && d = '\n' then acc.reverse :: pySplitlinesGo rest []
        else acc.reverse :: pySplitlinesGo (d :: rest) []
      else pySplitlinesGo (d :: rest) (c :: acc) := rfl

theorem splitlinesGo_linesOk :
    ∀ (cs acc : List Char), (∀ c ∈ acc, isLineBreak c = false) →
      linesOk (pySplitlinesGo cs acc) := by
  intro cs acc
  induction cs, acc using pySplitlinesGo.induct with
  | case1 acc hemp =>
      intro hacc
      rw [go_nil, if_pos hemp]
      intro l hl
      simp at hl
  | case2 acc hemp =>
      intro hacc
      rw [go_nil, if_neg hemp]
      intro l hl c hc
      simp only [List.mem_singleton] at hl
      subst hl
      exact hacc c (List.mem_reverse.mp hc)
  | case3 c acc hbr =>
      intro hacc
      rw [go_one, if_pos hbr]
      intro l hl d hd
      simp only [List.mem_singleton] at hl
      subst hl
      exact hacc d (List.mem_reverse.mp hd)
  | case4 c acc hbr =>
      intro hacc
      rw [go_one, if_neg hbr]
      intro l hl d hd
      simp only [List.mem_singleton] at hl
      subst hl
      rcases List.mem_cons.mp (List.mem_reverse.mp hd) with h | h
      · subst h
        cases he : isLineBreak d
        · rfl
        · exact absurd he hbr
      · exact hacc d h
  | case5 c d rest acc hbr hcd ih =>
      intro hacc
      rw [go_two, if_pos hbr, if_pos hcd]
      intro l hl e he
      rcases List.mem_cons.mp hl with h | h
      · subst h
        exact hacc e (List.mem_reverse.mp he)
      · exact ih (by intro f hf; simp at hf) l h e he
  | case6 c d rest acc hbr hcd ih =>
      intro hacc
      rw [go_two, if_pos hbr, if_neg hcd]
      intro l hl e he
      rcases List.mem_cons.mp hl with h | h
      · subst h
        exact hacc e (List.mem_reverse.mp he)
      · exact ih (by intro f hf; simp at hf) l h e he
  | case7 c d rest acc hbr ih =>
      intro hacc
      rw [go_two, if_neg hbr]
      refine ih ?_
      intro e he
      rcases List.mem_cons.mp he with h | h
      · subst h
        cases hb : isLineBreak e
        · rfl
        · exact absurd hb hbr
      · exact hacc e h

theorem splitlines_linesOk (cs : List Char) : linesOk (pySplitlines cs) :=
  splitlinesGo_linesOk cs [] (by intro c hc; simp at hc)

theorem splitlinesGo_eq_nil :
    ∀ (cs acc : List Char), pySplitlinesGo cs acc = [] → cs = [] ∧ acc = [] := by
  intro cs acc
  induction cs, acc using pySplitlinesGo.induct with
  | case1 acc hemp =>
      intro _
      exact ⟨rfl, by simpa using hemp⟩
  | case2 acc hemp =>
      rw [go_nil, if_neg hemp]
      intro h
      simp at h
  | case3 c acc hbr =>
      rw [go_one, if_pos hbr]
      intro h
      simp at h
  | case4 c acc hbr =>
      rw [go_one, if_neg hbr]
      intro h
      simp at h
  | case5 c d rest acc hbr hcd ih =>
      rw [go_two, if_pos hbr, if_pos hcd]
      intro h
      simp at h
  | case6 c d rest acc hbr hcd ih =>
      rw [go_two, if_pos hbr, if_neg hcd]
      intro h
      simp at h
  | case7 c d rest acc hbr ih =>
      rw [go_two, if_neg hbr]
      intro h
      obtain ⟨h1, _⟩ := ih h
      cases h1

theorem splitlines_eq_nil (cs : List Char) (h : pySplitlines cs = []) : cs = [] :=
  (splitlinesGo_eq_nil cs [] h).1

theorem joinNL_cons_le (x : List Char) (xs : List (List Char)) :
    (joinNL (x :: xs)).length ≤ x.length + 1 + (joinNL xs).length := by
  cases xs with
  | nil => simp [joinNL]
  | cons y r =>
      simp only [joinNL, List.length_append, List.length_cons]
      omega

theorem joinNL_go_le :
    ∀ (cs acc : List Char),
      (joinNL (pySplitlinesGo cs acc)).length ≤ cs.length + acc.length := by
  intro cs acc
  induction cs, acc using pySplitlinesGo.induct with
  | case1 acc hemp =>
      rw [go_nil, if_pos hemp]
      simp [joinNL]
  | case2 acc hemp =>
      rw [go_nil, if_neg hemp]
      simp [joinNL]
  | case3 c acc hbr =>
      rw [go_one, if_pos hbr]
      simp [joinNL]
  | case4 c acc hbr =>
      rw [go_one, if_neg hbr]
      simp only [joinNL, List.length_reverse, List.length_cons]
      omega
  | case5 c d rest acc hbr hcd ih =>
      rw [go_two, if_pos hbr, if_pos hcd]
      have h := joinNL_cons_le acc.reverse (pySplitlinesGo rest [])
      simp only [List.length_reverse, List.length_cons, List.length_nil] at *
      omega
  | case6 c d rest acc hbr hcd ih =>
      rw [go_two, if_pos hbr, if_neg hcd]
      have h := joinNL_cons_le acc.reverse (pySplitlinesGo (d :: rest) [])
      simp only [List.length_reverse, List.length_cons, List.length_nil] at *
      omega
  | case7 c d rest acc hbr ih =>
      rw [go_two, if_neg hbr]
      simp only [List.length_cons] at *
      omega

theorem joinNL_go_lt :
    ∀ (cs acc : List Char), endsBreak cs = true →
      (joinNL (pySplitlinesGo cs acc)).length < cs.length + acc.length := by
  intro cs acc
  induction cs, acc using pySplitlinesGo.induct with
  | case1 acc hemp =>
      intro h
      simp [endsBreak] at h
  | case2 acc hemp =>
      intro h
      simp [endsBreak] at h
  | case3 c acc hbr =>
      intro h
      rw [go_one, if_pos hbr]
      simp [joinNL]
  | case4 c acc hbr =>
      intro h
      exact absurd (show isLineBreak c = true from h) hbr
  | case5 c d rest acc hbr hcd ih =>
      intro h
      rw [go_two, if_pos hbr, if_pos hcd]
      have h1 := joinNL_cons_le acc.reverse (pySplitlinesGo rest [])
      have h2 := joinNL_go_le rest []
      simp only [List.length_reverse, List.length_cons, List.length_nil] at *
      omega
  | case6 c d rest acc hbr hcd ih =>
      intro h
      rw [go_two, if_pos hbr, if_neg hcd]
      have hend : endsBreak (d :: rest) = true := h
      have h1 := joinNL_cons_le acc.reverse (pySplitlinesGo (d :: rest) [])
      have h2 := ih hend
      simp only [List.length_reverse, List.length_cons, List.length_nil] at *
      omega
  | case7 c d rest acc hbr ih =>
      intro h
      rw [go_two, if_neg hbr]
      have hend : endsBreak (d :: rest) = true := h
      have h2 := ih hend
      simp only [List.length_cons] at *
      omega

/-! ## Invariants of the fixing loop -/

theorem pyIdx_some_lt (len : Nat) (i : Int) (n : Nat) (h : pyIdx len i = some n) :
    n < len := by
  unfold pyIdx at h
  split_ifs at h
  all_goals simp only [Option.some_inj] at h
  all_goals omega

theorem pyIdx_guard_none (len p : Nat) (hg : ((p : Int) - 1) < (len : Int))
    (h : pyIdx len ((p : Int) - 1) = none) : len = 0 := by
  unfold pyIdx at h
  split_ifs at h
  all_goals omega

theorem pyIdx_mono (len1 len2 : Nat) (i : Int) (n : Nat)
    (hle : len1 ≤ len2) (h : pyIdx len1 i = some n) :
    ∃ m, pyIdx len2 i = some m ∧ m < len2 := by
  unfold pyIdx at h ⊢
  split_ifs at h with h1 h2 h3
  · simp only [Option.some_inj] at h
    refine ⟨i.toNat, ?_, by omega⟩
    rw [if_pos h1, if_pos (by omega)]
  · simp only [Option.some_inj] at h
    refine ⟨(i + (len2 : Int)).toNat, ?_, by omega⟩
    rw [if_neg h1, if_pos (by omega)]

theorem commentPrefix_ok : ∀ c ∈ commentPrefix, isLineBreak c = false := by decide

theorem placeholderDocstring_ok :
    ∀ c ∈ placeholderDocstring, isLineBreak c = false := by decide

theorem applyIssue_inv (lines fixedLines comments : List (List Char))
    (issue : List Char) (hbf : linesOk lines) (hst : linesOk fixedLines)
    (hlen : lines.length ≤ fixedLines.length) :
    (∃ st', applyIssue lines (fixedLines, comments) issue = Except.ok st' ∧
       linesOk st'.1 ∧ lines.length ≤ st'.1.length) ∨
    (applyIssue lines (fixedLines, comments) issue = Except.error () ∧ lines = []) := by
  cases hp : parseIssue issue with
  | none =>
      exact Or.inl ⟨_, applyIssue_skip _ _ _ hp, hst, hlen⟩
  | some q =>
      obtain ⟨p, col, code, msg⟩ := q
      by_cases hg : ((p : Int) - 1) < ((lines.length : Nat) : Int)
      · by_cases hc1 : code = str "F841" ∧ containsSub (str "undefined name") msg = false
        · cases hq : searchQuoted msg with
          | none =>
              left
              refine ⟨(fixedLines, comments), ?_, hst, hlen⟩
              simp only [applyIssue, hp]
              rw [if_pos hg, if_pos hc1]
              simp only [hq]
          | some x =>
              cases hidx : pyIdx lines.length ((p : Int) - 1) with
              | none =>
                  right
                  constructor
                  · simp only [applyIssue, hp]
                    rw [if_pos hg, if_pos hc1]
                    simp only [hq, pyGet, hidx]
                  · have h0 : lines.length = 0 := pyIdx_guard_none _ p hg hidx
                    cases lines with
                    | nil => rfl
                    | cons a b => simp at h0
              | some n =>
                  have hn : n < lines.length := pyIdx_some_lt _ _ _ hidx
                  obtain ⟨m, hidx2, hm⟩ :=
                    pyIdx_mono lines.length fixedLines.length ((p : Int) - 1) n hlen hidx
                  have heq : applyIssue lines (fixedLines, comments) issue =
                      Except.ok (fixedLines.set m (commentPrefix ++ lines.getD n []),
                        comments ++ [str "Line " ++ natDigits ((p : Int) - 1 + 1).toNat ++
                          str ": Removed unused variable " ++ [quoteChar] ++ x ++
                          [quoteChar]]) := by
                    simp only [applyIssue, hp]
                    rw [if_pos hg, if_pos hc1]
                    simp only [hq, pyGet, pySet, hidx, hidx2]
                  left
                  refine ⟨_, heq, ?_, ?_⟩
                  · intro l hl d hd
                    rcases List.mem_or_eq_of_mem_set hl with h | h
                    · exact hst l h d hd
                    · subst h
                      rcases List.mem_append.mp hd with h | h
                      · exact commentPrefix_ok d h
                      · have hmem : lines.getD n [] ∈ lines := by
                          rw [List.getD_eq_getElem lines [] hn]
                          exact List.getElem_mem hn
                        exact hbf _ hmem d h
                  · simpa using hlen
        · by_cases hc2 : code = str "D100" ∧ containsSub (str "missing docstring") msg = true
          · have heq : applyIssue lines (fixedLines, comments) issue =
                Except.ok (placeholderDocstring :: fixedLines,
                  comments ++ [str "Line 1: Added missing docstring"]) := by
              simp only [applyIssue, hp]
              rw [if_pos hg, if_neg hc1, if_pos hc2]
            left
            refine ⟨_, heq, ?_, ?_⟩
            · intro l hl d hd
              rcases List.mem_cons.mp hl with h | h
              · subst h
                exact placeholderDocstring_ok d hd
              · exact hst l h d hd
            · simp only [List.length_cons]
              omega
          · left
            refine ⟨(fixedLines, comments), ?_, hst, hlen⟩
            simp only [applyIssue, hp]
            rw [if_pos hg, if_neg hc1, if_neg hc2]
      · left
        refine ⟨(fixedLines, comments), ?_, hst, hlen⟩
        simp only [applyIssue, hp]
        rw [if_neg hg]

theorem runIssues_inv (lines : List (List Char)) (hbf : linesOk lines) :
    ∀ (issues : List (List Char)) (fixedLines comments : List (List Char)),
      linesOk fixedLines → lines.length ≤ fixedLines.length →
      (∃ st', runIssues lines (fixedLines, comments) issues = Except.ok st' ∧
         linesOk st'.1) ∨
      (runIssues lines (fixedLines, comments) issues = Except.error () ∧ lines = []) := by
  intro issues
  induction issues with
  | nil =>
      intro f c hf hl
      exact Or.inl ⟨(f, c), rfl, hf⟩
  | cons i rest ih =>
      intro f c hf hl
      rcases applyIssue_inv lines f c i hbf hf hl with ⟨st', heq, hok, hlen'⟩ | ⟨heq, hnil⟩
      · obtain ⟨f', c'⟩ := st'
        rw [runIssues_cons lines (f, c) (f', c') i rest heq]
        exact ih f' c' hok hlen'
      · right
        refine ⟨?_, hnil⟩
        simp only [runIssues, heq]

/-! ## Claim theorems -/

/-- Claim C1, counterexample.  The claim says the note for an
unused-variable finding at 1-based line L references line L + 1; for a
finding at line 2 the fixer's note references line 2, and no note
references line 3. -/
theorem C1_counterexample :
    (fix_task_func (str "a = 1\nx = 2\nb = 3")
        [str "t.py:2:5: F841 local variable 'x' is assigned to but never used"]).2 =
      [str "Line 2: Removed unused variable 'x'"] ∧
    ∀ cm ∈ (fix_task_func (str "a = 1\nx = 2\nb = 3")
        [str "t.py:2:5: F841 local variable 'x' is assigned to but never used"]).2,
      containsSub (str "Line 3") cm = false := by
  refine ⟨by decide, by decide⟩

/-- Claim C1 (amended): for a finding line parsing to code F841 with a
message that does not contain "undefined name" and holds a quoted name
x, at a 1-based line L within the file, the fixer replaces the line at
L with a comment-prefixed copy of that line and appends a note
referencing line L (not L + 1) and the name x. -/
theorem C1_unused_variable_fix (content issue : List Char) (p col : Nat)
    (msg x : List Char)
    (hp : parseIssue issue = some (p, col, str "F841", msg))
    (hu : containsSub (str "undefined name") msg = false)
    (hx : searchQuoted msg = some x)
    (h1 : 1 ≤ p) (h2 : p ≤ (pySplitlines content).length) :
    fix_task_func content [issue] =
      (joinNL ((pySplitlines content).set (p - 1)
        (commentPrefix ++ (pySplitlines content).getD (p - 1) [])),
       [str "Line " ++ natDigits p ++ str ": Removed unused variable " ++
        [quoteChar] ++ x ++ [quoteChar]]) := by
  have happ := applyIssue_F841 (pySplitlines content) (pySplitlines content) []
    issue p col msg x hp hu hx h1 h2 (le_refl _)
  refine fix_of_runIssues content [issue] _ _ ?_
  rw [runIssues_cons _ _ _ _ _ happ, runIssues_nil]
  rfl

/-- Witness for C1: the amended theorem applied at a concrete file and
finding. -/
theorem C1_witness :
    fix_task_func (str "a = 1\nx = 2")
        [str "t.py:2:3: F841 local variable 'x' is assigned to but never used"] =
      (joinNL ((pySplitlines (str "a = 1\nx = 2")).set (2 - 1)
        (commentPrefix ++ (pySplitlines (str "a = 1\nx = 2")).getD (2 - 1) [])),
       [str "Line " ++ natDigits 2 ++ str ": Removed unused variable " ++
        [quoteChar] ++ str "x" ++ [quoteChar]]) :=
  C1_unused_variable_fix (str "a = 1\nx = 2")
    (str "t.py:2:3: F841 local variable 'x' is assigned to but never used") 2 3
    (str "local variable 'x' is assigned to but never used") (str "x")
    (by decide) (by decide) (by decide) (by decide) (by decide)

/-- Claim C2, counterexample.  The claim says a finding with 1-based
line number greater than or equal to the file's line count produces no
mutation and no note; a finding at line 2 of a 2-line file (so line
number = line count) does mutate the file and appends a note. -/
theorem C2_counterexample :
    (pySplitlines (str "a = 1\nb = 2")).length = 2 ∧
    fix_task_func (str "a = 1\nb = 2")
        [str "t.py:2:1: F841 local variable 'b' is assigned to but never used"] =
      (str "a = 1\n# Removed unused variable: b = 2",
       [str "Line 2: Removed unused variable 'b'"]) := by
  refine ⟨by decide, by decide⟩

/-- Claim C2 (amended): a parsed finding whose 1-based line number is
strictly greater than the file's line count (equivalently, whose
converted 0-based index is at least the line count) leaves the loop
state untouched - no mutation and no appended note - both as a single
loop step in any state and for a whole fixer run on that one finding. -/
theorem C2_out_of_range_skipped :
    (∀ (lines : List (List Char)) (st : List (List Char) × List (List Char))
       (issue : List Char) (p col : Nat) (code msg : List Char),
       parseIssue issue = some (p, col, code, msg) → lines.length < p →
       applyIssue lines st issue = Except.ok st) ∧
    (∀ (content issue : List Char) (p col : Nat) (code msg : List Char),
       parseIssue issue = some (p, col, code, msg) →
       (pySplitlines content).length < p →
       fix_task_func content [issue] = (joinNL (pySplitlines content), [])) := by
  constructor
  · intro lines st issue p col code msg hp hlt
    exact applyIssue_outOfRange lines st issue p col code msg hp hlt
  · intro content issue p col code msg hp hlt
    refine fix_of_runIssues content [issue] _ _ ?_
    rw [runIssues_cons _ _ _ _ _
      (applyIssue_outOfRange _ _ issue p col code msg hp hlt), runIssues_nil]

/-- Witness for C2: the amended theorem applied at a one-line file and
a finding at line 5. -/
theorem C2_witness :
    applyIssue (pySplitlines (str "a = 1")) (pySplitlines (str "a = 1"), [])
        (str "t.py:5:1: F841 local variable 'x' is assigned to but never used") =
      Except.ok (pySplitlines (str "a = 1"), []) ∧
    fix_task_func (str "a = 1")
        [str "t.py:5:1: F841 local variable 'x' is assigned to but never used"] =
      (joinNL (pySplitlines (str "a = 1")), []) :=
  ⟨C2_out_of_range_skipped.1 _ _ _ 5 1 (str "F841")
      (str "local variable 'x' is assigned to but never used") (by decide) (by decide),
   C2_out_of_range_skipped.2 _ _ 5 1 (str "F841")
      (str "local variable 'x' is assigned to but never used") (by decide) (by decide)⟩

/-- Claim C3: within one fixer pass, a docstring fix's insert-at-top
does not shift the line numbers used by a subsequent unused-variable
fix.  The later fix writes at the unadjusted index p - 1 of the working
copy (which carries the inserted docstring on top), and the replacement
text is the comment-out of line p - 1 of the snapshot taken at function
entry, not of the shifted working copy. -/
theorem C3_snapshot_offsets (content d1 i2 : List Char) (pd cd p c : Nat)
    (msgd msg x : List Char)
    (hpd : parseIssue d1 = some (pd, cd, str "D100", msgd))
    (hmd : containsSub (str "missing docstring") msgd = true)
    (hbd : pd ≤ (pySplitlines content).length)
    (hp : parseIssue i2 = some (p, c, str "F841", msg))
    (hu : containsSub (str "undefined name") msg = false)
    (hx : searchQuoted msg = some x)
    (h1 : 1 ≤ p) (h2 : p ≤ (pySplitlines content).length) :
    fix_task_func content [d1, i2] =
      (joinNL ((placeholderDocstring :: pySplitlines content).set (p - 1)
          (commentPrefix ++ (pySplitlines content).getD (p - 1) [])),
       [str "Line 1: Added missing docstring",
        str "Line " ++ natDigits p ++ str ": Removed unused variable " ++
          [quoteChar] ++ x ++ [quoteChar]]) := by
  have hd := applyIssue_D100 (pySplitlines content) (pySplitlines content) []
    d1 pd cd msgd hpd hmd hbd
  have hf := applyIssue_F841 (pySplitlines content)
    (placeholderDocstring :: pySplitlines content)
    ([] ++ [str "Line 1: Added missing docstring"]) i2 p c msg x hp hu hx h1 h2
    (Nat.le_succ _)
  refine fix_of_runIssues content [d1, i2] _ _ ?_
  rw [runIssues_cons _ _ _ _ _ hd, runIssues_cons _ _ _ _ _ hf, runIssues_nil]
  rfl

/-- Witness for C3: the theorem applied at a three-line file with a
docstring finding followed by an unused-variable finding at line 2. -/
theorem C3_witness :
    fix_task_func (str "a = 1\nx = 2\nb = 3")
        [str "f.py:1:1: D100 missing docstring in module",
         str "t.py:2:5: F841 local variable 'x' is assigned to but never used"] =
      (joinNL ((placeholderDocstring :: pySplitlines (str "a = 1\nx = 2\nb = 3")).set (2 - 1)
          (commentPrefix ++ (pySplitlines (str "a = 1\nx = 2\nb = 3")).getD (2 - 1) [])),
       [str "Line 1: Added missing docstring",
        str "Line " ++ natDigits 2 ++ str ": Removed unused variable " ++
          [quoteChar] ++ str "x" ++ [quoteChar]]) :=
  C3_snapshot_offsets (str "a = 1\nx = 2\nb = 3")
    (str "f.py:1:1: D100 missing docstring in module")
    (str "t.py:2:5: F841 local variable 'x' is assigned to but never used")
    1 1 2 5 (str "missing docstring in module")
    (str "local variable 'x' is assigned to but never used") (str "x")
    (by decide) (by decide) (by decide) (by decide) (by decide) (by decide)
    (by decide) (by decide)

/-- Claim C4, counterexample.  On the empty file, a D100 finding at
line 1 inserts nothing and produces no note (the docstring branch sits
inside the line-bound guard, and 0 lines fail it); and on a one-line
file the note is "Line 1: Added missing docstring" with a capital A,
so the list does not contain the claimed note "Line 1: added missing
docstring". -/
theorem C4_counterexample :
    fix_task_func (str "") [str "f.py:1:1: D100 missing docstring"] = (str "", []) ∧
    (fix_task_func (str "x = 1")
        [str "f.py:1:1: D100 missing docstring in public module"]).2 =
      [str "Line 1: Added missing docstring"] ∧
    ¬ str "Line 1: added missing docstring" ∈
      (fix_task_func (str "x = 1")
        [str "f.py:1:1: D100 missing docstring in public module"]).2 := by
  refine ⟨by decide, by decide, by decide⟩

/-- Claim C4 (amended): for a finding parsing to code D100 with a
message containing "missing docstring" whose parsed line number is at
most the file's line count, the fixer inserts the placeholder docstring
as line 1, shifts the original content down one line, and appends the
note "Line 1: Added missing docstring". -/
theorem C4_docstring_inserted (content issue : List Char) (p col : Nat)
    (msg : List Char)
    (hp : parseIssue issue = some (p, col, str "D100", msg))
    (hm : containsSub (str "missing docstring") msg = true)
    (h2 : p ≤ (pySplitlines content).length) :
    fix_task_func content [issue] =
      (joinNL (placeholderDocstring :: pySplitlines content),
       [str "Line 1: Added missing docstring"]) := by
  refine fix_of_runIssues content [issue] _ _ ?_
  rw [runIssues_cons _ _ _ _ _
    (applyIssue_D100 _ _ _ issue p col msg hp hm h2), runIssues_nil]
  rfl

/-- Witness for C4: the amended theorem applied at a one-line file. -/
theorem C4_witness :
    fix_task_func (str "x = 1")
        [str "f.py:1:1: D100 missing docstring in public module"] =
      (joinNL (placeholderDocstring :: pySplitlines (str "x = 1")),
       [str "Line 1: Added missing docstring"]) :=
  C4_docstring_inserted (str "x = 1")
    (str "f.py:1:1: D100 missing docstring in public module") 1 1
    (str "missing docstring in public module") (by decide) (by decide) (by decide)

/-- Claim C5, counterexample.  The claim says non-matching finding
lines leave the content unchanged; on content ending with a newline the
fixer returns the newline-stripped join instead, so the content does
change. -/
theorem C5_counterexample :
    fix_task_func (str "a\n") [str "garbage"] = (str "a", []) ∧
    str "a" ≠ str "a\n" := by
  refine ⟨by decide, by decide⟩

/-- Claim C5 (amended): feeding the fixer only finding lines that fail
the record pattern yields an empty note list and the content unchanged
up to the fixer's unconditional line normalization - the output is the
newline join of the content's lines (trailing line terminator and
carriage returns dropped); the non-matching lines are silently
skipped. -/
theorem C5_nonmatching_skipped (content : List Char) (issues : List (List Char))
    (h : ∀ i ∈ issues, parseIssue i = none) :
    fix_task_func content issues = (joinNL (pySplitlines content), []) :=
  fix_of_runIssues content issues _ _
    (runIssues_all_skip (pySplitlines content) _ issues h)

/-- Witness for C5: the amended theorem applied at a concrete content
and a non-matching finding line. -/
theorem C5_witness :
    fix_task_func (str "a\n") [str "garbage"] =
      (joinNL (pySplitlines (str "a\n")), []) :=
  C5_nonmatching_skipped (str "a\n") [str "garbage"] (by decide)

/-- Claim C6: the fixer's fixed_content is always the newline join of a
list of line-boundary-free lines (the split of the input with the
per-finding edits applied), so carriage-return terminators never
survive into the output; with no findings the output is exactly the
join of the input's lines; and when the input ends with a line
terminator, the no-findings output is strictly shorter than the input -
the trailing terminator is not preserved. -/
theorem C6_join_normalization (content : List Char) (issues : List (List Char)) :
    (fix_task_func content []).1 = joinNL (pySplitlines content) ∧
    (∃ ls, linesOk ls ∧ (fix_task_func content issues).1 = joinNL ls) ∧
    (endsBreak content = true →
      (fix_task_func content []).1.length < content.length) := by
  have hnil : fix_task_func content [] = (joinNL (pySplitlines content), []) :=
    fix_of_runIssues content [] _ _ (runIssues_nil _ _)
  refine ⟨by rw [hnil], ?_, ?_⟩
  · rcases runIssues_inv (pySplitlines content) (splitlines_linesOk content)
      issues (pySplitlines content) [] (splitlines_linesOk content) (le_refl _) with
      ⟨⟨f, c⟩, heq, hok⟩ | ⟨heq, hnl⟩
    · exact ⟨f, hok, by rw [fix_of_runIssues content issues f c heq]⟩
    · have hc : content = [] := splitlines_eq_nil content hnl
      have herr : fixBody content issues = Except.error () := by
        simp only [fixBody, heq]
      refine ⟨[], by intro l hl; simp at hl, ?_⟩
      subst hc
      simp only [fix_task_func, herr, joinNL]
  · intro hend
    rw [hnil]
    have h := joinNL_go_lt content [] hend
    simpa [pySplitlines] using h

/-- Witness for C6: the trailing-terminator conjunct applied at content
ending in a newline. -/
theorem C6_witness :
    endsBreak (str "a\n") = true ∧
    (fix_task_func (str "a\n") []).1.length < (str "a\n").length :=
  ⟨by decide, (C6_join_normalization (str "a\n") []).2.2 (by decide)⟩

/-- Claim C7: whenever the body of the fixer raises (models the
script's try block failing), fix_task_func returns the original content
together with an empty note list; being a total function it never
propagates the exception to its caller. -/
theorem C7_exception_policy (content : List Char) (issues : List (List Char))
    (e : Unit) (h : fixBody content issues = Except.error e) :
    fix_task_func content issues = (content, []) := by
  simp only [fix_task_func, h]

/-- Witness for C7: a finding at line 0 of the empty file drives the
body into the error case (negative indexing of an empty list), and the
fixer returns the original content and no notes. -/
theorem C7_witness :
    fixBody (str "")
        [str "f.py:0:1: F841 local variable 'x' is assigned to but never used"] =
      Except.error () ∧
    fix_task_func (str "")
        [str "f.py:0:1: F841 local variable 'x' is assigned to but never used"] =
      (str "", []) :=
  ⟨by rfl, C7_exception_policy _ _ () (by rfl)⟩

/-- Claim C8: a raised exception during the linter invocation, and a
nonzero exit with empty stdout, both make run_linter return the empty
finding list - the same value a clean file (exit 0, empty stdout)
produces - and run_linter is total, so nothing is raised to the
caller. -/
theorem C8_linter_failure_empty (rc : Int) (err : List Char) :
    run_linter LintOutcome.raised = run_linter (LintOutcome.completed 0 [] []) ∧
    (rc ≠ 0 → run_linter (LintOutcome.completed rc [] err) =
      run_linter (LintOutcome.completed 0 [] [])) ∧
    run_linter (LintOutcome.completed 0 [] []) = [] := by
  refine ⟨rfl, ?_, rfl⟩
  intro h
  simp only [run_linter]
  rw [if_pos ⟨h, trivial⟩]
  rfl

/-- Witness for C8: the failure conjunct applied at exit code 1 with a
stderr message. -/
theorem C8_witness :
    run_linter (LintOutcome.completed 1 [] (str "flake8 crashed")) =
      run_linter (LintOutcome.completed 0 [] []) :=
  (C8_linter_failure_empty 1 (str "flake8 crashed")).2.1 (by decide)

/-- Claim C9: per file, when both linter invocations yield no findings,
review_task_func returns exactly the fixed success message embedding
the file's path, and the orchestrator's per-file pass never invokes the
fixer. -/
theorem C9_clean_file (env : FileEnv) (path : List Char)
    (h1 : run_linter env.reviewLint = [])
    (h2 : run_linter env.fixLint = []) :
    review_task_func env.reviewLint env.reviewLLM path =
      str "✅ No issues found in " ++ path ∧
    Event.fixerRun ∉ processFile env path := by
  constructor
  · simp only [review_task_func, h1]
    simp
  · cases hc : env.content with
    | none => simp [processFile, hc]
    | some content => simp [processFile, hc, h1, h2]

/-- Witness for C9: the theorem applied at a concrete per-file
environment whose two linter outcomes are clean runs. -/
theorem C9_witness :
    review_task_func (LintOutcome.completed 0 [] []) (LLMOutcome.answered [])
        (str "a.py") =
      str "✅ No issues found in " ++ str "a.py" ∧
    Event.fixerRun ∉ processFile
      (FileEnv.mk (some []) (LintOutcome.completed 0 [] [])
        (LLMOutcome.answered []) (LintOutcome.completed 0 [] []) none)
      (str "a.py") :=
  C9_clean_file
    (FileEnv.mk (some []) (LintOutcome.completed 0 [] [])
      (LLMOutcome.answered []) (LintOutcome.completed 0 [] []) none)
    (str "a.py") (by decide) (by decide)

/-- Claim C10: when the pull-request file listing yields no Python
files - because the listing call raised, or because no listed file has
the Python suffix - the orchestrator terminates normally (exit code 0)
with no further external calls of any kind. -/
theorem C10_empty_listing_noop :
    (∀ env : MainEnv, get_pr_files env.files = [] → main_func env = (0, [])) ∧
    get_pr_files GhFilesOutcome.raised = [] ∧
    (∀ files : List (List Char),
      (∀ f ∈ files, (str ".py").isSuffixOf f = false) →
      get_pr_files (GhFilesOutcome.listed files) = []) := by
  refine ⟨?_, rfl, ?_⟩
  · intro env h
    simp [main_func, h]
  · intro files h
    simp only [get_pr_files]
    rw [List.filter_eq_nil_iff]
    intro a ha
    simp [h a ha]

/-- Witness for C10: the no-op conjunct applied at an environment whose
listing raised, and the filter conjunct at a non-Python file list. -/
theorem C10_witness :
    main_func (MainEnv.mk GhFilesOutcome.raised
      (fun _ => FileEnv.mk none LintOutcome.raised (LLMOutcome.answered [])
        LintOutcome.raised none)) = (0, []) ∧
    get_pr_files (GhFilesOutcome.listed [str "README.md"]) = [] :=
  ⟨C10_empty_listing_noop.1
      (MainEnv.mk GhFilesOutcome.raised
        (fun _ => FileEnv.mk none LintOutcome.raised (LLMOutcome.answered [])
          LintOutcome.raised none)) (by decide),
   C10_empty_listing_noop.2.2 [str "README.md"] (by decide)⟩
